import Mathlib

/-
  Verification development for the order-routing engine of the PO analyzer
  (src/src/App.js).  The engine part of the source consists of the pure
  function `determineRouting(data)` (reading the `team` roster) and the
  roster update performed in `processOrder` after a decision is made.
  Everything below is a shallow embedding of that JavaScript code:
  strings are Lean `String`s over the same characters, JavaScript numbers
  that the engine only ever treats as integers are `Int`, JavaScript
  `undefined`-able numeric fields are `Option Int`, and the one failure
  point of the engine (reading `.name` of `undefined` when the generalist
  pool is empty) is made explicit with `Except`.
-/

namespace OrderRouting

/-- A line item of the extraction result (schema in the `processOrder`
prompt of App.js): `lineNumber`, `pageNumber`, `partNumber`, `prefixes`,
`quantity`. -/
structure LineItem where
  lineNumber : String
  pageNumber : Int
  partNumber : String
  prefixes : List String
  quantity : Int
deriving DecidableEq

/-- An entry of `Page.itemsOnPage` (`{ qty, desc }` in App.js). -/
structure ItemOnPage where
  qty : String
  desc : String
deriving DecidableEq

/-- A page of the extraction result (`pages` array in App.js). -/
structure Page where
  pageNumber : Int
  type : String
  summary : String
  itemsOnPage : List ItemOnPage
deriving DecidableEq

/-- The extraction result consumed by `determineRouting`.  `pageCount` and
`totalLineCount` may be absent in the JSON (`undefined` in JavaScript),
hence `Option Int`; an absent list behaves exactly like an empty one in
every place the engine reads it, so lists are plain `List`s. -/
structure ExtractionResult where
  poNumber : String
  pageCount : Option Int
  totalLineCount : Option Int
  routingKeywords : List String
  lineItems : List LineItem
  pages : List Page
deriving DecidableEq

/-- A roster entry (`INITIAL_TEAM` shape in App.js, sans display color). -/
structure TeamMember where
  id : Int
  name : String
  role : String
  cards : Int
  totalPages : Int
deriving DecidableEq

/-- The decision object returned by `determineRouting`. -/
structure RoutingDecision where
  route : String
  flags : List String
  reason : String
  evidence : Option String
  logs : List String
  pageCount : Int
deriving DecidableEq

/-- How the engine can fail.  The spec names an `EmptyPoolError` for an
empty balancer pool; the source, on that same path, evaluates
`oeReps.sort(...)[0]` to `undefined` and then throws a JavaScript
`TypeError` when reading `.name`.  Both failure identities are
constructors so that statements can tell them apart; the embedding of the
source only ever produces `typeErrorUndefined`. -/
inductive EngineError where
  | emptyPool
  | typeErrorUndefined
deriving DecidableEq

/-- JavaScript `x || d` on an integer: `0` is falsy and falls through. -/
def jsOrI (x d : Int) : Int := if x = 0 then d else x

/-- JavaScript `x || d` where `x` may be `undefined` (`none`). -/
def jsOrOpt (x : Option Int) (d : Int) : Int := jsOrI (x.getD 0) d

/-- ASCII upper-casing of a string, the behavior of JavaScript
`toUpperCase()` on the ASCII text the engine handles. -/
def asciiUpper (s : String) : String := String.mk (s.data.map Char.toUpper)

/-- Characters kept by the regex `[^0-9A-Z]` replacement: digits and
upper-case ASCII letters. -/
def keepChar (c : Char) : Bool :=
  (decide ('0' ≤ c) && decide (c ≤ '9')) || (decide ('A' ≤ c) && decide (c ≤ 'Z'))

/-- Character-by-character removal performed by
`p.replace(/[^0-9A-Z]/g, '')`: every char matching `[^0-9A-Z]` is
replaced by the empty string, i.e. dropped. -/
def cleanChars : List Char → List Char
  | [] => []
  | c :: cs => if keepChar c then c :: cleanChars cs else cleanChars cs

/-- The prefix normalizer of `determineRouting`:
`p.replace(/[^0-9A-Z]/g, '')`. -/
def cleanToken (p : String) : String := String.mk (cleanChars p.data)

/-- Restricted prefix configuration (`keyingPrefixes` in App.js). -/
def keyingPrefixes : List String :=
  ["10", "21", "22", "51", "59", "82", "83", "73", "AL"]

/-- Restricted keyword configuration (`keyingKeywords` in App.js). -/
def keyingKeywords : List String :=
  ["MK", "GMK", "SKD", "KA", "KEYED", "MASTER KEY", "GRAND MASTER", "KESO"]

/-- JavaScript `hay.includes(sub)`: substring containment. -/
def jsIncludes (hay sub : String) : Bool := decide (sub.data <:+: hay.data)

/-- One iteration of the line-item loop of `determineRouting`: clean the
prefixes, skip the item when `partNumber` starts with `"31"` and the
cleaned prefixes contain `"AL"` (the "Hallucination Fix"), otherwise
return the first cleaned prefix that is in `keyingPrefixes`.
`List.isPrefixOf "31".data ...` embeds `partNumber.startsWith("31")`. -/
def itemMatch (it : LineItem) : Option String :=
  let cl := it.prefixes.map cleanToken
  if (it.partNumber != "") && List.isPrefixOf ("31".data) it.partNumber.data
      && cl.contains "AL" then
    none
  else
    cl.find? (fun q => keyingPrefixes.contains q)

/-- The `for (let item of data.lineItems)` loop: first item with a
restricted prefix wins (`break`), suppressed or prefix-free items are
passed over. -/
def lineScan : List LineItem → Option (String × LineItem)
  | [] => none
  | it :: rest =>
    match itemMatch it with
    | some q => some (q, it)
    | none => lineScan rest

/-- `data.totalLineCount || data.lineItems?.length || 0`. -/
def actualLineCount (data : ExtractionResult) : Int :=
  jsOrOpt data.totalLineCount (jsOrI (Int.ofNat data.lineItems.length) 0)

/-- The advisory volume flags pushed by `determineRouting`. -/
def volumeFlags (n : Int) : List String :=
  if n ≥ 10 then ["10+ LINES"]
  else if 0 < n ∧ n ≤ 3 then ["CHECKERED FLAG"]
  else []

/-- The `safeSearchFields` corpus joined with spaces and upper-cased:
routing keywords, then every page summary, then every `itemsOnPage`
description. -/
def globalText (data : ExtractionResult) : String :=
  asciiUpper (String.intercalate " "
    (data.routingKeywords ++ data.pages.map Page.summary
      ++ (data.pages.map (fun page => page.itemsOnPage.map ItemOnPage.desc)).flatten))

/-- `keyingKeywords.find(kw => globalText.includes(kw))`. -/
def foundKeyword (data : ExtractionResult) : Option String :=
  keyingKeywords.find? (fun kw => jsIncludes (globalText data) kw)

/-- `team.find(m => m.role.includes("Keying"))`. -/
def keyingRep (team : List TeamMember) : Option TeamMember :=
  team.find? (fun m => jsIncludes m.role "Keying")

/-- `keyingRep ? keyingRep.name : "Keying Dept"`. -/
def keyingRoute (team : List TeamMember) : String :=
  match keyingRep team with
  | some m => m.name
  | none => "Keying Dept"

/-- Workload order used by `oeReps.sort((a, b) => a.totalPages - b.totalPages)`. -/
def byPages (a b : TeamMember) : Prop := a.totalPages ≤ b.totalPages

instance : DecidableRel byPages :=
  fun a b => inferInstanceAs (Decidable (a.totalPages ≤ b.totalPages))

/-- `team.filter(m => m.role === "Order Entry")`. -/
def oePool (team : List TeamMember) : List TeamMember :=
  team.filter (fun m => m.role == "Order Entry")

/-- `oeReps.sort((a, b) => a.totalPages - b.totalPages)[0]` embedded with a
stable ascending sort (ECMAScript `Array.prototype.sort` is stable), whose
head is the earliest operator of minimal `totalPages`; `none` is the
`undefined` of indexing an empty array. -/
def balancedPick (team : List TeamMember) : Option TeamMember :=
  (List.insertionSort byPages (oePool team)).head?

/-- `item.lineNumber || 'N/A'` inside the evidence template. -/
def lineNumberText (it : LineItem) : String :=
  if it.lineNumber = "" then "N/A" else it.lineNumber

/-- The evidence template uses `item.pageNumber || '?'`. -/
def pageNumberText (it : LineItem) : String :=
  if it.pageNumber = 0 then "?" else toString it.pageNumber

/-- The `LINE DETECTED` evidence block for a restricted-prefix match. -/
def lineEvidence (it : LineItem) (q : String) : String :=
  "LINE DETECTED:\nLine #: " ++ lineNumberText it ++ "\nPage: " ++ pageNumberText it
    ++ "\nPart: " ++ it.partNumber ++ "\nPrefix: [" ++ q ++ "]"

/-- The `KEYWORD DETECTED` evidence line for a global keyword match. -/
def keywordEvidence (kw : String) : String :=
  "KEYWORD DETECTED: \"" ++ kw ++ "\" found in notes/summary."

/-- The two fixed opening trail lines plus the high-volume alert. -/
def baseLogs (n : Int) : List String :=
  ["> Initializing Routing Protocol...", "> Scanning content for flags..."]
    ++ (if n ≥ 10 then ["! ALERT: High Volume (" ++ toString n ++ " lines)"] else [])

/-- The routing engine `determineRouting(data)` of App.js, with the roster
passed explicitly (the source closes over the `team` state).  The three
branches are: restricted-prefix match on a line item, global keyword
match, and workload balancing; the balancing branch throws (here: returns
`Except.error`) when the generalist pool is empty. -/
def determineRouting (data : ExtractionResult) (team : List TeamMember) :
    Except EngineError RoutingDecision :=
  match lineScan data.lineItems with
  | some (q, it) =>
    Except.ok {
      route := keyingRoute team
      flags := volumeFlags (actualLineCount data)
      reason := "Restricted Prefix \x27" ++ q ++ "\x27"
      evidence := some (lineEvidence it q)
      logs := baseLogs (actualLineCount data)
        ++ ["> MATCH FOUND: Keying Prefix [" ++ q ++ "] on Page "
              ++ toString it.pageNumber,
            "> ROUTING: Directed to Special Handling (" ++ keyingRoute team ++ ")"]
      pageCount := jsOrOpt data.pageCount 1 }
  | none =>
    match foundKeyword data with
    | some kw =>
      Except.ok {
        route := keyingRoute team
        flags := volumeFlags (actualLineCount data)
        reason := "Global Keyword Match"
        evidence := some (keywordEvidence kw)
        logs := baseLogs (actualLineCount data)
          ++ ["> MATCH FOUND: Global Keyword [" ++ kw ++ "]",
              "> ROUTING: Directed to Special Handling (" ++ keyingRoute team ++ ")"]
        pageCount := jsOrOpt data.pageCount 1 }
    | none =>
      match balancedPick team with
      | none => Except.error EngineError.typeErrorUndefined
      | some m =>
        Except.ok {
          route := m.name
          flags := volumeFlags (actualLineCount data)
          reason := "Lowest Page Load (" ++ toString m.totalPages ++ "pgs)"
          evidence := none
          logs := baseLogs (actualLineCount data)
            ++ ["> No restrictions found.", "> Calculating workload balance...",
                "> ASSIGNMENT: " ++ m.name ++ " (Load: "
                  ++ toString m.totalPages ++ ")"]
          pageCount := jsOrOpt data.pageCount 1 }

/-- The roster update in `processOrder`: the member whose `name` equals the
decision route gets `cards + 1` and `totalPages + (pageCount || 1)`;
every other member is returned unchanged. -/
def updateTeam (team : List TeamMember) (d : RoutingDecision) : List TeamMember :=
  team.map (fun m =>
    if m.name == d.route then
      { m with cards := m.cards + 1, totalPages := m.totalPages + jsOrI d.pageCount 1 }
    else m)

/-- Projection: the route of a successful decision. -/
def routeOf : Except EngineError RoutingDecision → Option String
  | Except.ok d => some d.route
  | Except.error _ => none

/-- Projection: the reason of a successful decision. -/
def reasonOf : Except EngineError RoutingDecision → Option String
  | Except.ok d => some d.reason
  | Except.error _ => none

/-- Projection: the evidence of a successful decision. -/
def evidenceOf : Except EngineError RoutingDecision → Option String
  | Except.ok d => d.evidence
  | Except.error _ => none

/-- Projection: the flags of a successful decision. -/
def flagsOf : Except EngineError RoutingDecision → Option (List String)
  | Except.ok d => some d.flags
  | Except.error _ => none

/-- Projection: the error of a failed run. -/
def errOf : Except EngineError RoutingDecision → Option EngineError
  | Except.ok _ => none
  | Except.error e => some e

/-- First operator of minimal `totalPages` in list order; the element an
ECMAScript stable ascending sort places first. -/
def firstMin : List TeamMember → Option TeamMember
  | [] => none
  | a :: l =>
    match firstMin l with
    | none => some a
    | some b => if byPages a b then some a else some b

/-! ### Sample inputs used by witnesses and counterexamples -/

/-- A line item with no restricted prefix (prefix 12 is not in the set). -/
def benign1 : LineItem :=
  { lineNumber := "1", pageNumber := 1, partNumber := "8804", prefixes := ["12"],
    quantity := 1 }

/-- A second unrestricted line item. -/
def benign2 : LineItem :=
  { lineNumber := "2", pageNumber := 1, partNumber := "8806", prefixes := [],
    quantity := 2 }

/-- A line item carrying the restricted prefix 59. -/
def itemR59 : LineItem :=
  { lineNumber := "2", pageNumber := 2, partNumber := "8804", prefixes := ["59"],
    quantity := 1 }

/-- A line item carrying the restricted prefix 21. -/
def itemR21 : LineItem :=
  { lineNumber := "3", pageNumber := 2, partNumber := "8810", prefixes := ["21"],
    quantity := 1 }

/-- The false-positive pattern: part number starting in 31 with prefix AL. -/
def item31AL : LineItem :=
  { lineNumber := "4", pageNumber := 3, partNumber := "3100-X", prefixes := ["AL"],
    quantity := 1 }

/-- Generalist with the heaviest load. -/
def memberA : TeamMember :=
  { id := 1, name := "A", role := "Order Entry", cards := 5, totalPages := 30 }

/-- Generalist tied for the lightest load, first in roster order. -/
def memberB : TeamMember :=
  { id := 2, name := "B", role := "Order Entry", cards := 4, totalPages := 10 }

/-- Generalist tied for the lightest load, second in roster order. -/
def memberC : TeamMember :=
  { id := 3, name := "C", role := "Order Entry", cards := 9, totalPages := 10 }

/-- The balancer-determinism roster of the spec. -/
def teamABC : List TeamMember := [memberA, memberB, memberC]

/-- A roster member who is neither a generalist nor a specialist. -/
def susan : TeamMember :=
  { id := 4, name := "Susan Alpert", role := "Chargebacks", cards := 2, totalPages := 5 }

/-- A roster with no "Order Entry" generalist at all. -/
def teamNoOE : List TeamMember := [susan]

/-- An extraction result with no line items, keywords or pages. -/
def emptyData : ExtractionResult :=
  { poNumber := "PO-1", pageCount := some 2, totalLineCount := none,
    routingKeywords := [], lineItems := [], pages := [] }

/-- An extraction result reporting `totalLineCount = 0` while carrying two
line items. -/
def dataZeroTLC : ExtractionResult :=
  { poNumber := "PO-2", pageCount := some 1, totalLineCount := some 0,
    routingKeywords := [], lineItems := [benign1, benign2], pages := [] }

/-- A page whose free-text summary mentions a master key in lower case. -/
def pageMK : Page :=
  { pageNumber := 1, type := "PO Data", summary := "Doors require master key system",
    itemsOnPage := [] }

/-- An extraction result whose only restricted signal is the lower-case
keyword inside a page summary. -/
def dataMK : ExtractionResult :=
  { poNumber := "PO-3", pageCount := none, totalLineCount := some 5,
    routingKeywords := [], lineItems := [benign1], pages := [pageMK] }

/-- Line items: a benign first item, a restricted second, a restricted
third; the routing keyword would also match if it were ever consulted. -/
def lineDemoData : ExtractionResult :=
  { poNumber := "PO-4", pageCount := some 3, totalLineCount := some 3,
    routingKeywords := ["KEYED"], lineItems := [benign1, itemR59, itemR21],
    pages := [] }

/-- A single restricted line item. -/
def dataKeyed : ExtractionResult :=
  { poNumber := "PO-5", pageCount := some 4, totalLineCount := some 1,
    routingKeywords := [], lineItems := [itemR59], pages := [] }

/-- `totalLineCount = 10` and nothing else of note. -/
def dataTen : ExtractionResult :=
  { poNumber := "PO-6", pageCount := some 1, totalLineCount := some 10,
    routingKeywords := [], lineItems := [], pages := [] }

/-- The decision the engine produces for `dataTen` against `teamABC`. -/
def decisionTen : RoutingDecision :=
  { route := "B", flags := ["10+ LINES"], reason := "Lowest Page Load (10pgs)",
    evidence := none,
    logs := ["> Initializing Routing Protocol...", "> Scanning content for flags...",
             "! ALERT: High Volume (10 lines)", "> No restrictions found.",
             "> Calculating workload balance...", "> ASSIGNMENT: B (Load: 10)"],
    pageCount := 1 }

/-- The decision the engine produces for `emptyData` against `teamABC`. -/
def decisionB : RoutingDecision :=
  { route := "B", flags := [], reason := "Lowest Page Load (10pgs)",
    evidence := none,
    logs := ["> Initializing Routing Protocol...", "> Scanning content for flags...",
             "> No restrictions found.", "> Calculating workload balance...",
             "> ASSIGNMENT: B (Load: 10)"],
    pageCount := 2 }

/-- The decision the engine produces for `dataKeyed` against `[memberB]`:
a restriction match with no specialist on the roster, hence the fixed
fallback label. -/
def deptDecision : RoutingDecision :=
  { route := "Keying Dept", flags := ["CHECKERED FLAG"],
    reason := "Restricted Prefix \x2759\x27",
    evidence := some (lineEvidence itemR59 "59"),
    logs := ["> Initializing Routing Protocol...", "> Scanning content for flags...",
             "> MATCH FOUND: Keying Prefix [59] on Page 2",
             "> ROUTING: Directed to Special Handling (Keying Dept)"],
    pageCount := 4 }

/-! ### Helper lemmas -/

/-- The regex character removal is the `filter` by `keepChar`. -/
lemma cleanChars_eq_filter (l : List Char) : cleanChars l = l.filter keepChar := by
  induction l with
  | nil => rfl
  | cons c cs ih =>
    rw [cleanChars, List.filter_cons]
    cases h : keepChar c <;> simp [h, ih]

/-- Scanning past a block of non-matching items. -/
lemma lineScan_append_none (xs : List LineItem)
    (h : ∀ x ∈ xs, itemMatch x = none) (l : List LineItem) :
    lineScan (xs ++ l) = lineScan l := by
  induction xs with
  | nil => rfl
  | cons a xs ih =>
    have ha := h a (List.mem_cons_self a xs)
    rw [List.cons_append, lineScan, ha]
    exact ih (fun x hx => h x (List.mem_cons_of_mem a hx))

/-- A non-matching item anywhere in the list is invisible to the scan. -/
lemma lineScan_skip (it : LineItem) (hit : itemMatch it = none)
    (xs ys : List LineItem) : lineScan (xs ++ it :: ys) = lineScan (xs ++ ys) := by
  induction xs with
  | nil => rw [List.nil_append, List.nil_append, lineScan, hit]
  | cons a xs ih =>
    rw [List.cons_append, List.cons_append, lineScan, lineScan]
    cases itemMatch a <;> simp [ih]

/-- Head of an ordered insert in terms of the head of the target list. -/
lemma head_orderedInsert (a : TeamMember) (s : List TeamMember) :
    (List.orderedInsert byPages a s).head? =
      match s.head? with
      | none => some a
      | some b => if byPages a b then some a else some b := by
  cases s with
  | nil => rfl
  | cons b t =>
    rw [List.orderedInsert]
    split <;> rename_i h <;> simp [h]

/-- The head of the stable ascending sort is the first minimum. -/
lemma head_insertionSort (l : List TeamMember) :
    (List.insertionSort byPages l).head? = firstMin l := by
  induction l with
  | nil => rfl
  | cons a l ih =>
    rw [List.insertionSort, head_orderedInsert, ih, firstMin]

/-- The first minimum is a member of the list. -/
lemma firstMin_mem : ∀ (l : List TeamMember) (m : TeamMember),
    firstMin l = some m → m ∈ l := by
  intro l
  induction l with
  | nil => intro m h; exact absurd h (by simp [firstMin])
  | cons a l ih =>
    intro m h
    cases hf : firstMin l with
    | none =>
      simp only [firstMin, hf] at h
      cases h; exact List.mem_cons_self a l
    | some b =>
      simp only [firstMin, hf] at h
      by_cases hab : byPages a b
      · rw [if_pos hab] at h; cases h; exact List.mem_cons_self a l
      · rw [if_neg hab] at h; cases h; exact List.mem_cons_of_mem a (ih _ hf)

/-- An element strictly lighter than everything before it and no heavier
than everything after it is the first minimum. -/
lemma firstMin_first : ∀ (pre post : List TeamMember) (m : TeamMember),
    (∀ x ∈ pre, m.totalPages < x.totalPages) →
    (∀ x ∈ post, m.totalPages ≤ x.totalPages) →
    firstMin (pre ++ m :: post) = some m := by
  intro pre
  induction pre with
  | nil =>
    intro post m _ hpost
    rw [List.nil_append]
    cases hf : firstMin post with
    | none => simp only [firstMin, hf]
    | some b =>
      have hb : byPages m b := hpost b (firstMin_mem post b hf)
      simp only [firstMin, hf]
      rw [if_pos hb]
  | cons a pre ih =>
    intro post m hpre hpost
    have ha : m.totalPages < a.totalPages := hpre a (List.mem_cons_self a pre)
    have hrest := ih post m (fun x hx => hpre x (List.mem_cons_of_mem a hx)) hpost
    rw [List.cons_append]
    simp only [firstMin, hrest]
    rw [if_neg (show ¬ byPages a m from not_le.mpr ha)]

/-- Every successful decision carries the volume flags of the computed
line count. -/
lemma ok_flags (data : ExtractionResult) (team : List TeamMember)
    (d : RoutingDecision) (hd : determineRouting data team = Except.ok d) :
    d.flags = volumeFlags (actualLineCount data) := by
  unfold determineRouting at hd
  split at hd
  · cases hd; rfl
  · split at hd
    · cases hd; rfl
    · split at hd
      · simp at hd
      · cases hd; rfl

/-- Every successful decision carries `pageCount || 1` from the input. -/
lemma ok_pageCount (data : ExtractionResult) (team : List TeamMember)
    (d : RoutingDecision) (hd : determineRouting data team = Except.ok d) :
    d.pageCount = jsOrOpt data.pageCount 1 := by
  unfold determineRouting at hd
  split at hd
  · cases hd; rfl
  · split at hd
    · cases hd; rfl
    · split at hd
      · simp at hd
      · cases hd; rfl

/-- The `|| 1` default never produces zero. -/
lemma jsOrOpt_one_ne (x : Option Int) : jsOrOpt x 1 ≠ 0 := by
  cases x with
  | none => decide
  | some v =>
    simp only [jsOrOpt, Option.getD_some, jsOrI]
    split
    · decide
    · assumption

/-- With a nonzero decision page count, the update adds exactly the
decision's `pageCount`. -/
lemma update_exact (roster : List TeamMember) (d : RoutingDecision)
    (hpc : d.pageCount ≠ 0) :
    updateTeam roster d = roster.map (fun m =>
      if m.name = d.route then
        { m with cards := m.cards + 1, totalPages := m.totalPages + d.pageCount }
      else m) := by
  have hj : jsOrI d.pageCount 1 = d.pageCount := by simp [jsOrI, hpc]
  simp only [updateTeam, hj, beq_iff_eq]

/-! ### Claim theorems -/

/-- Claim C1, counterexample to the claim as stated: on an input with no
restriction match and a roster with no "Order Entry" operator, the engine
does fail, but the failure is the JavaScript TypeError of reading `.name`
of `undefined`, not a named EmptyPoolError. -/
theorem c1_counterexample :
    errOf (determineRouting emptyData teamNoOE) = some EngineError.typeErrorUndefined ∧
    errOf (determineRouting emptyData teamNoOE) ≠ some EngineError.emptyPool := by
  exact ⟨by decide, by decide⟩

/-- Claim C1 (amended): when no restriction match is found and the roster
contains no operator whose role is exactly "Order Entry", the engine fails
— it surfaces an error to the caller rather than silently defaulting — but
the error is the undefined-dereference TypeError, not an explicit
EmptyPoolError. -/
theorem c1_empty_pool_failure (data : ExtractionResult) (team : List TeamMember)
    (hline : lineScan data.lineItems = none) (hkw : foundKeyword data = none)
    (hpool : oePool team = []) :
    determineRouting data team = Except.error EngineError.typeErrorUndefined := by
  simp only [determineRouting, hline, hkw, balancedPick, hpool]
  rfl

/-- Witness for the amended C1 theorem at a concrete roster and input. -/
theorem c1_empty_pool_failure_witness :
    oePool teamNoOE = [] ∧
    determineRouting emptyData teamNoOE = Except.error EngineError.typeErrorUndefined :=
  ⟨by decide, c1_empty_pool_failure emptyData teamNoOE (by decide) (by decide) (by decide)⟩

/-- Claim C2, counterexample to the claim as stated: the normalizer does
not case-fold; the lower-case token "al" normalizes to the empty string,
not to "AL". -/
theorem c2_counterexample : cleanToken "al" = "" ∧ cleanToken "al" ≠ "AL" := by
  exact ⟨by decide, by decide⟩

/-- Claim C2 (amended): for every raw prefix token the normalizer returns
the token with every character outside 0-9 and A-Z removed, performing no
case folding — every surviving character is a digit or an upper-case ASCII
letter, so lower-case letters are deleted rather than upper-cased. -/
theorem c2_normalizer_amended (p : String) :
    (cleanToken p).data = p.data.filter keepChar ∧
    ∀ c ∈ (cleanToken p).data, (('0' ≤ c ∧ c ≤ '9') ∨ ('A' ≤ c ∧ c ≤ 'Z')) := by
  have h : (cleanToken p).data = p.data.filter keepChar := cleanChars_eq_filter p.data
  refine ⟨h, ?_⟩
  intro c hc
  rw [h] at hc
  have hk : keepChar c = true := (List.mem_filter.mp hc).2
  simpa [keepChar] using hk

/-- Witness for the amended C2 theorem at the concrete token "a1-B". -/
theorem c2_normalizer_amended_witness :
    (cleanToken "a1-B").data = "a1-B".data.filter keepChar ∧
    ∀ c ∈ (cleanToken "a1-B").data, (('0' ≤ c ∧ c ≤ '9') ∨ ('A' ≤ c ∧ c ≤ 'Z')) :=
  c2_normalizer_amended "a1-B"

/-- Claim C8: a line item whose part number starts with "31" and whose
normalized prefix list contains "AL" is skipped entirely by the line-item
scan — it never produces a match and the scan of any list containing it
equals the scan of the list with it removed. -/
theorem c8_suppression (it : LineItem) (xs ys : List LineItem)
    (hS : List.isPrefixOf ("31".data) it.partNumber.data = true)
    (hA : ((it.prefixes.map cleanToken).contains "AL") = true) :
    itemMatch it = none ∧ lineScan (xs ++ it :: ys) = lineScan (xs ++ ys) := by
  have hnempty : it.partNumber ≠ "" := by
    intro hz
    rw [hz] at hS
    exact absurd hS (by decide)
  have hne : (it.partNumber != "") = true := bne_iff_ne.mpr hnempty
  have hm : itemMatch it = none := by
    simp only [itemMatch, hne, hS, hA, Bool.and_self, if_true]
  exact ⟨hm, lineScan_skip it hm xs ys⟩

/-- Witness for C8: partNumber "3100-X" with prefixes ["AL"] is skipped and
on its own never triggers a restriction match. -/
theorem c8_suppression_witness :
    itemMatch item31AL = none ∧
    lineScan ([] ++ item31AL :: []) = lineScan ([] ++ ([] : List LineItem)) :=
  c8_suppression item31AL [] [] (by decide) (by decide)

/-- Claim C10: when the decision route matches no roster member's name (as
happens when the fallback label "Keying Dept" is assigned), the roster
update leaves every operator record unchanged and raises no error. -/
theorem c10_update_noop (roster : List TeamMember) (d : RoutingDecision)
    (h : ∀ m ∈ roster, m.name ≠ d.route) :
    updateTeam roster d = roster := by
  induction roster with
  | nil => rfl
  | cons a t ih =>
    have ha : (a.name == d.route) = false :=
      beq_eq_false_iff_ne.mpr (h a (List.mem_cons_self a t))
    have ht := ih (fun m hm => h m (List.mem_cons_of_mem a hm))
    simp only [updateTeam, List.map_cons] at ht ⊢
    rw [ha]
    simp only [Bool.false_eq_true, if_false, ht]

/-- Witness for C10: the "Keying Dept" decision for a restricted order on a
roster with no specialist leaves that roster untouched. -/
theorem c10_update_noop_witness :
    routeOf (determineRouting dataKeyed [memberB]) = some deptDecision.route ∧
    updateTeam [memberB] deptDecision = [memberB] :=
  ⟨by decide, c10_update_noop [memberB] deptDecision (by decide)⟩

/-- Claim C3: detection is first-match-wins in document order.  If the
line items split as a block of non-matching items followed by a matching
item `it`, the decision's reason and evidence come from `it` alone — for
every choice of later items, pages and routing keywords — so nothing after
the first qualifying item, and no global keyword, is ever consulted. -/
theorem c3_first_match_wins (data : ExtractionResult) (team : List TeamMember)
    (xs ys : List LineItem) (it : LineItem) (q : String)
    (hsplit : data.lineItems = xs ++ it :: ys)
    (hxs : ∀ x ∈ xs, itemMatch x = none)
    (hit : itemMatch it = some q) :
    routeOf (determineRouting data team) = some (keyingRoute team) ∧
    reasonOf (determineRouting data team) =
      some ("Restricted Prefix \x27" ++ q ++ "\x27") ∧
    evidenceOf (determineRouting data team) = some (lineEvidence it q) := by
  have hscan : lineScan data.lineItems = some (q, it) := by
    rw [hsplit, lineScan_append_none xs hxs, lineScan, hit]
  refine ⟨?_, ?_, ?_⟩ <;>
    simp only [determineRouting, hscan, routeOf, reasonOf, evidenceOf]

/-- Witness for C3: line item 1 is benign, line item 2 carries prefix 59;
the evidence cites line item 2 although line item 3 would also match and
the routing keywords contain "KEYED". -/
theorem c3_first_match_wins_witness :
    itemMatch benign1 = none ∧ itemMatch itemR59 = some "59" ∧
    routeOf (determineRouting lineDemoData teamABC) = some (keyingRoute teamABC) ∧
    reasonOf (determineRouting lineDemoData teamABC) =
      some ("Restricted Prefix \x27" ++ "59" ++ "\x27") ∧
    evidenceOf (determineRouting lineDemoData teamABC) =
      some (lineEvidence itemR59 "59") :=
  ⟨by decide, by decide,
    c3_first_match_wins lineDemoData teamABC [benign1] [itemR21] itemR59 "59"
      rfl (by decide) (by decide)⟩

/-- Claim C4, counterexample to the claim as stated: with
`totalLineCount = 0` and two line items present, the JavaScript falsy
fallback kicks in and the decision carries the "CHECKERED FLAG" volume
flag, not the absence of a flag. -/
theorem c4_counterexample :
    dataZeroTLC.totalLineCount = some 0 ∧
    flagsOf (determineRouting dataZeroTLC teamABC) = some ["CHECKERED FLAG"] ∧
    flagsOf (determineRouting dataZeroTLC teamABC) ≠ some [] := by
  exact ⟨by decide, by decide, by decide⟩

/-- Claim C4 (amended): the volume flag is computed from `totalLineCount`,
falling back to the number of line items whenever `totalLineCount` is
absent or zero (JavaScript `||`): 10 yields exactly "10+ LINES", 3 yields
exactly "CHECKERED FLAG", 4 yields no flag, and 0 behaves as if the count
were the number of line items. -/
theorem c4_volume_flags_amended (data : ExtractionResult) (team : List TeamMember)
    (d : RoutingDecision) (hd : determineRouting data team = Except.ok d) :
    (data.totalLineCount = some 10 → d.flags = ["10+ LINES"]) ∧
    (data.totalLineCount = some 3 → d.flags = ["CHECKERED FLAG"]) ∧
    (data.totalLineCount = some 4 → d.flags = []) ∧
    ((data.totalLineCount = some 0 ∨ data.totalLineCount = none) →
      d.flags = volumeFlags (Int.ofNat data.lineItems.length)) := by
  have hf := ok_flags data team d hd
  refine ⟨fun h => ?_, fun h => ?_, fun h => ?_, fun h => ?_⟩
  · rw [hf, show actualLineCount data = 10 by
      simp [actualLineCount, h, jsOrOpt, jsOrI]]
    decide
  · rw [hf, show actualLineCount data = 3 by
      simp [actualLineCount, h, jsOrOpt, jsOrI]]
    decide
  · rw [hf, show actualLineCount data = 4 by
      simp [actualLineCount, h, jsOrOpt, jsOrI]]
    decide
  · rw [hf]
    have : actualLineCount data = Int.ofNat data.lineItems.length := by
      rcases h with h | h <;>
        · simp only [actualLineCount, h, jsOrOpt, Option.getD_some, Option.getD_none,
            jsOrI, if_pos rfl]
          split <;> simp_all
    rw [this]

/-- Witness for the amended C4 theorem: `totalLineCount = 10` produces
exactly the "10+ LINES" flag. -/
theorem c4_volume_flags_amended_witness :
    dataTen.totalLineCount = some 10 ∧ decisionTen.flags = ["10+ LINES"] :=
  ⟨rfl, (c4_volume_flags_amended dataTen teamABC decisionTen rfl).1 rfl⟩

/-- Claim C5: for every roster and every decision the engine produces,
the roster update increments `cards` by exactly 1 and `totalPages` by
exactly the decision's `pageCount` on each operator whose name equals the
route, and returns every other operator unchanged. -/
theorem c5_roster_update (data : ExtractionResult) (team roster : List TeamMember)
    (d : RoutingDecision) (hd : determineRouting data team = Except.ok d) :
    updateTeam roster d = roster.map (fun m =>
      if m.name = d.route then
        { m with cards := m.cards + 1, totalPages := m.totalPages + d.pageCount }
      else m) := by
  have hpc : d.pageCount ≠ 0 := by
    rw [ok_pageCount data team d hd]
    exact jsOrOpt_one_ne data.pageCount
  exact update_exact roster d hpc

/-- Witness for C5: updating `teamABC` with the decision the engine makes
on `emptyData` (pageCount 2, route "B") adds one card and two pages to B
and leaves A and C untouched. -/
theorem c5_roster_update_witness :
    (updateTeam teamABC decisionB = teamABC.map (fun m =>
      if m.name = decisionB.route then
        { m with cards := m.cards + 1, totalPages := m.totalPages + decisionB.pageCount }
      else m)) ∧
    updateTeam teamABC decisionB =
      [memberA, { memberB with cards := 5, totalPages := 12 }, memberC] :=
  ⟨c5_roster_update emptyData teamABC teamABC decisionB rfl, by decide⟩

/-- Claim C6: on the balanced path the engine picks, among the "Order
Entry" operators, the one of minimal `totalPages`, ties broken by the
first such operator in roster order, and the reason string reports that
operator's `totalPages` as it was before the roster update. -/
theorem c6_balancer_pick (data : ExtractionResult) (team : List TeamMember)
    (pre post : List TeamMember) (m : TeamMember)
    (hline : lineScan data.lineItems = none)
    (hkw : foundKeyword data = none)
    (hpool : oePool team = pre ++ m :: post)
    (hpre : ∀ x ∈ pre, m.totalPages < x.totalPages)
    (hpost : ∀ x ∈ post, m.totalPages ≤ x.totalPages) :
    routeOf (determineRouting data team) = some m.name ∧
    reasonOf (determineRouting data team) =
      some ("Lowest Page Load (" ++ toString m.totalPages ++ "pgs)") := by
  have hpick : balancedPick team = some m := by
    rw [balancedPick, head_insertionSort, hpool, firstMin_first pre post m hpre hpost]
  constructor <;>
    simp only [determineRouting, hline, hkw, hpick, routeOf, reasonOf]

/-- Witness for C6: on the roster A(30 pages), B(10 pages), C(10 pages)
the pick is B, the first of the two equally light operators. -/
theorem c6_balancer_pick_witness :
    routeOf (determineRouting emptyData teamABC) = some memberB.name ∧
    reasonOf (determineRouting emptyData teamABC) =
      some ("Lowest Page Load (" ++ toString memberB.totalPages ++ "pgs)") := by
  exact c6_balancer_pick emptyData teamABC [memberA] [memberC] memberB
    (by decide) (by decide) (by decide) (by decide) (by decide)

/-- Claim C7: if no line-item prefix matched and the upper-cased corpus of
routing keywords, page summaries and item descriptions contains some
restricted keyword as a substring, the decision's reason is "Global
Keyword Match" and its evidence carries the matched keyword, which is a
member of the restricted set contained in the corpus. -/
theorem c7_global_keyword (data : ExtractionResult) (team : List TeamMember)
    (hline : lineScan data.lineItems = none)
    (hkw : keyingKeywords.any (fun kw => jsIncludes (globalText data) kw) = true) :
    reasonOf (determineRouting data team) = some "Global Keyword Match" ∧
    evidenceOf (determineRouting data team) = (foundKeyword data).map keywordEvidence ∧
    (foundKeyword data).isSome = true ∧
    ∀ kw, foundKeyword data = some kw →
      kw ∈ keyingKeywords ∧ jsIncludes (globalText data) kw = true := by
  have hsome : (foundKeyword data).isSome = true := by
    rw [foundKeyword, List.find?_isSome]
    exact List.any_eq_true.mp hkw
  obtain ⟨kw, hfk⟩ := Option.isSome_iff_exists.mp hsome
  refine ⟨?_, ?_, hsome, ?_⟩
  · simp only [determineRouting, hline, hfk, reasonOf]
  · simp only [determineRouting, hline, hfk, evidenceOf]
    rfl
  · intro kw2 hkw2
    rw [foundKeyword] at hkw2
    exact ⟨List.mem_of_find?_eq_some hkw2, List.find?_some hkw2⟩

/-- Witness for C7: a page summary containing lower-case "master key"
triggers the global keyword match. -/
theorem c7_global_keyword_witness :
    reasonOf (determineRouting dataMK teamABC) = some "Global Keyword Match" ∧
    evidenceOf (determineRouting dataMK teamABC) =
      (foundKeyword dataMK).map keywordEvidence ∧
    (foundKeyword dataMK).isSome = true ∧
    ∀ kw, foundKeyword dataMK = some kw →
      kw ∈ keyingKeywords ∧ jsIncludes (globalText dataMK) kw = true :=
  c7_global_keyword dataMK teamABC (by decide) (by decide)

/-- Claim C9: on any restriction match the engine never fails: the route
is the name of the first roster operator whose role contains "Keying" when
one exists, and the fixed fallback label "Keying Dept" when no such
operator exists. -/
theorem c9_specialist_route (data : ExtractionResult) (team : List TeamMember)
    (hmatch : lineScan data.lineItems ≠ none ∨ foundKeyword data ≠ none) :
    routeOf (determineRouting data team) = some (keyingRoute team) ∧
    (keyingRep team = none → keyingRoute team = "Keying Dept") ∧
    (∀ m, keyingRep team = some m →
      keyingRoute team = m.name ∧ m ∈ team ∧ jsIncludes m.role "Keying" = true) ∧
    (keyingRep team = none ↔ ∀ m ∈ team, jsIncludes m.role "Keying" = false) := by
  refine ⟨?_, ?_, ?_, ?_⟩
  · cases hls : lineScan data.lineItems with
    | some qit =>
      obtain ⟨q, it⟩ := qit
      simp only [determineRouting, hls, routeOf]
    | none =>
      have hfk : foundKeyword data ≠ none := by
        rcases hmatch with h | h
        · exact absurd hls h
        · exact h
      obtain ⟨kw, hk⟩ := Option.ne_none_iff_exists'.mp hfk
      simp only [determineRouting, hls, hk, routeOf]
  · intro h
    rw [keyingRoute, h]
  · intro m hm
    have hm2 := hm
    rw [keyingRep] at hm2
    have hp : (fun x : TeamMember => jsIncludes x.role "Keying") m = true :=
      @List.find?_some TeamMember (fun x => jsIncludes x.role "Keying") m team hm2
    exact ⟨by rw [keyingRoute, hm], List.mem_of_find?_eq_some hm2, hp⟩
  · rw [keyingRep, List.find?_eq_none]
    simp only [Bool.not_eq_true]

/-- Witness for C9: a restricted order against a roster with no specialist
routes to the fixed label "Keying Dept" without failing. -/
theorem c9_specialist_route_witness :
    routeOf (determineRouting dataKeyed [memberB]) = some (keyingRoute [memberB]) ∧
    (keyingRep [memberB] = none → keyingRoute [memberB] = "Keying Dept") ∧
    (∀ m, keyingRep [memberB] = some m →
      keyingRoute [memberB] = m.name ∧ m ∈ [memberB] ∧
        jsIncludes m.role "Keying" = true) ∧
    (keyingRep [memberB] = none ↔ ∀ m ∈ [memberB], jsIncludes m.role "Keying" = false) :=
  c9_specialist_route dataKeyed [memberB] (Or.inl (by decide))

end OrderRouting
